import Mathlib

/-! Flynn: volume HTTP API handlers and CLI cluster configuration.

A shallow embedding of

* `host/volume/api/http.go`: the handlers of `HTTPAPI`.  A handler is a
  function from its request to the ordered list of calls it makes on its
  collaborators (the volume manager, the cluster client, the remote host
  client, `httphelper.Error` and `httphelper.JSON`).  The collaborators are
  not part of the handler file; they are passed in as records of functions
  that give the result of each call.  Every collaborator is called at most
  once per request, so a function of the arguments covers every behaviour.
* `cli/config/config.go`: `Config.Add` and `Config.Upgrade` over the list of
  clusters.
-/

namespace Flynn

/-! ## Errors and responses -/

/-- Go `error` values the handlers compare against or pass on.  The first
four are the sentinel errors of the `volume` and `volumemanager` packages,
`InvalidUnmarshalError` is the one `encoding/json` returns for a target that
is not a pointer, `other` is any other error. -/
inductive Err where
  | UnknownProviderKind
  | ProviderAlreadyExists
  | NoSuchProvider
  | NoSuchVolume
  | InvalidUnmarshalError
  | other (tag : Nat)
  deriving DecidableEq, Repr

/-- The `httphelper` error codes used by the handlers. -/
inductive ErrorCode where
  | ValidationError
  | ObjectNotFoundError
  | ObjectExistsError
  deriving DecidableEq, Repr

/-- A `fmt.Sprintf` call kept symbolic: the format string and its `%q`
argument. -/
structure Sprintf where
  format : String
  arg : Option String
  deriving DecidableEq, Repr

/-- The `httphelper.JSONError` struct literal as the handlers build it. -/
structure JSONError where
  Code : ErrorCode
  Message : Sprintf
  deriving DecidableEq, Repr

/-- The second argument of `httphelper.Error(w, ·)`: a `JSONError` built by
the handler, or an error passed on as it was received. -/
inductive ErrArg where
  | json (e : JSONError)
  | plain (err : Err)
  deriving DecidableEq, Repr

/-! ## Data of the `volume` package seen by the handlers -/

/-- The `volume.ProviderSpec` fields: the handler reads `ID` and `Kind`, the
backend configuration travels with them. -/
structure ProviderSpec where
  ID : String
  Kind : String
  Config : String
  deriving DecidableEq, Repr

/-- The `volume.PullCoordinate` fields read by `Pull`. -/
structure PullCoordinate where
  HostID : String
  SnapshotID : String
  deriving DecidableEq, Repr

/-- A `volume.Provider` value. -/
structure Provider where
  name : String
  deriving DecidableEq, Repr

/-- The `volume.Info` view of a volume or snapshot. -/
structure Info where
  ID : String
  deriving DecidableEq, Repr

/-- A `volume.Volume` (snapshots are volumes too); `Info` is its `Info()`. -/
structure Volume where
  Info : Info
  deriving DecidableEq, Repr

/-- An `io.Reader`, by the bytes it yields. -/
abbrev Reader := List Nat

/-- A `json.RawMessage`. -/
abbrev RawMessage := String

/-- The request body. -/
abbrev Body := String

/-- The value handed to `httphelper.JSON`. -/
inductive Payload where
  | providerSpec (p : ProviderSpec)
  | info (i : Info)
  | infoList (l : List Info)
  deriving DecidableEq, Repr

/-! ## Calls made by a handler -/

/-- One call of a handler on a collaborator, with its arguments.  `Panic` is
a nil dereference, which ends the handler. -/
inductive Event where
  | UUID
  | NewProvider (pspec : ProviderSpec)
  | AddProvider (id : String) (provider : Option Provider)
  | NewVolumeFromProvider (providerID : String)
  | Volumes
  | GetVolume (volumeID : String)
  | CreateSnapshot (volumeID : String)
  | DialHost (hostID : String)
  | ListHaves (volumeID : String)
  | HostSendSnapshot (snapshotID : String) (haves : List RawMessage)
  | ReceiveSnapshot (volumeID : String) (reader : Reader)
  | SendSnapshot (volumeID : String) (haves : List RawMessage)
  | Error (arg : ErrArg)
  | JSON (status : Nat) (body : Payload)
  | Panic
  deriving DecidableEq, Repr

/-- The calls of one handler run, in order. -/
abbrev Trace := List Event

/-! ## Collaborators -/

/-- The remote host client returned by `DialHost`. -/
structure HostClient where
  SendSnapshot : String → List RawMessage → Except Err Reader

/-- The `cluster.Client`. -/
structure ClusterClient where
  DialHost : String → Except Err HostClient

/-- The `volumemanager.Manager` methods the handlers call.  A method whose
error the handler only compares with one sentinel returns the Go pair (value,
error); `none` is `nil`. -/
structure Manager where
  AddProvider : String → Option Provider → Option Err
  NewVolumeFromProvider : String → Option Volume × Option Err
  Volumes : List Volume
  GetVolume : String → Option Volume
  CreateSnapshot : String → Except Err Volume
  ListHaves : String → Except Err (List RawMessage)
  ReceiveSnapshot : String → Reader → Except Err Volume
  SendSnapshot : String → List RawMessage → Option Err

/-- The `HTTPAPI` struct. -/
structure HTTPAPI where
  cluster : ClusterClient
  vman : Manager

/-- Package-level functions the handlers call: `json` decoding of the body,
`random.UUID` and `volumemanager.NewProvider`.  Decoding through a pointer to
a pointer gives an error, or the decoded struct, or `nil` for the JSON
`null`.  `readValue` is the decoder reading the next JSON value off the body:
`none` when the body holds a well-formed value. -/
structure Lib where
  decodeProviderSpec : Body → Except Err (Option ProviderSpec)
  decodePullCoordinate : Body → Except Err (Option PullCoordinate)
  readValue : Body → Option Err
  UUID : String
  NewProvider : ProviderSpec → Option Provider × Option Err

/-- `json.Decoder.Decode(v)` for a `v` that is not a pointer: the decoder
reads the next value and returns its error if there is one; unmarshalling
into a non-pointer then returns `InvalidUnmarshalError`.  `v` is never
written. -/
def DecodeNonPointer (readValue : Body → Option Err) (body : Body) : Option Err :=
  match readValue body with
  | some err => some err
  | none => some Err.InvalidUnmarshalError

/-! ## Handlers of `host/volume/api/http.go` -/

/-- The ID step of `CreateProvider`: `if pspec.ID == "" { pspec.ID = random.UUID() }`. -/
def assignID (uuid : String) (pspec : ProviderSpec) : ProviderSpec :=
  if pspec.ID = "" then { pspec with ID := uuid } else pspec

/-- `HTTPAPI.CreateProvider`. -/
def HTTPAPI.CreateProvider (lib : Lib) (api : HTTPAPI) (body : Body) : Trace :=
  match lib.decodeProviderSpec body with
  | .error err => [Event.Error (.plain err)]
  | .ok none => [Event.Panic]
  | .ok (some pspec0) =>
    let pspec : ProviderSpec := assignID lib.UUID pspec0
    let pre : List Event := if pspec0.ID = "" then [Event.UUID] else []
    if pspec.Kind = "" then
      pre ++ [Event.Error (.json ⟨.ValidationError,
        ⟨"volume provider \x27kind\x27 field must not be blank", none⟩⟩)]
    else
      let r := lib.NewProvider pspec
      if r.2 = some Err.UnknownProviderKind then
        pre ++ [Event.NewProvider pspec, Event.Error (.json ⟨.ValidationError,
          ⟨"volume provider kind %q is not known", some pspec.Kind⟩⟩)]
      else
        match api.vman.AddProvider pspec.ID r.1 with
        | some err =>
          if err = Err.ProviderAlreadyExists then
            pre ++ [Event.NewProvider pspec, Event.AddProvider pspec.ID r.1,
              Event.Error (.json ⟨.ObjectExistsError,
                ⟨"provider %q already exists", some pspec.ID⟩⟩)]
          else
            pre ++ [Event.NewProvider pspec, Event.AddProvider pspec.ID r.1,
              Event.Error (.plain err)]
        | none =>
          pre ++ [Event.NewProvider pspec, Event.AddProvider pspec.ID r.1,
            Event.JSON 200 (.providerSpec pspec)]

/-- `HTTPAPI.Create`.  `vol.Info()` on a nil `vol` is a nil dereference. -/
def HTTPAPI.Create (api : HTTPAPI) (providerID : String) : Trace :=
  let r := api.vman.NewVolumeFromProvider providerID
  if r.2 = some Err.NoSuchProvider then
    [Event.NewVolumeFromProvider providerID, Event.Error (.json ⟨.ObjectNotFoundError,
      ⟨"No volume provider by id %q", some providerID⟩⟩)]
  else
    match r.1 with
    | none => [Event.NewVolumeFromProvider providerID, Event.Panic]
    | some vol => [Event.NewVolumeFromProvider providerID, Event.JSON 200 (.info vol.Info)]

/-- `HTTPAPI.Inspect`. -/
def HTTPAPI.Inspect (api : HTTPAPI) (volumeID : String) : Trace :=
  match api.vman.GetVolume volumeID with
  | none =>
    [Event.GetVolume volumeID, Event.Error (.json ⟨.ObjectNotFoundError,
      ⟨"No volume by id %q", some volumeID⟩⟩)]
  | some vol => [Event.GetVolume volumeID, Event.JSON 200 (.info vol.Info)]

/-- `HTTPAPI.Snapshot`. -/
def HTTPAPI.Snapshot (api : HTTPAPI) (volumeID : String) : Trace :=
  match api.vman.CreateSnapshot volumeID with
  | .error err =>
    if err = Err.NoSuchVolume then
      [Event.CreateSnapshot volumeID, Event.Error (.json ⟨.ObjectNotFoundError,
        ⟨"No volume by id %q", some volumeID⟩⟩)]
    else
      [Event.CreateSnapshot volumeID, Event.Error (.plain err)]
  | .ok snap => [Event.CreateSnapshot volumeID, Event.JSON 200 (.info snap.Info)]

/-- `HTTPAPI.Pull`. -/
def HTTPAPI.Pull (lib : Lib) (api : HTTPAPI) (volumeID : String) (body : Body) : Trace :=
  match lib.decodePullCoordinate body with
  | .error err => [Event.Error (.plain err)]
  | .ok none => [Event.Panic]
  | .ok (some pull) =>
    match api.cluster.DialHost pull.HostID with
    | .error err => [Event.DialHost pull.HostID, Event.Error (.plain err)]
    | .ok hostClient =>
      match api.vman.ListHaves volumeID with
      | .error err =>
        [Event.DialHost pull.HostID, Event.ListHaves volumeID, Event.Error (.plain err)]
      | .ok haves =>
        match hostClient.SendSnapshot pull.SnapshotID haves with
        | .error err =>
          [Event.DialHost pull.HostID, Event.ListHaves volumeID,
            Event.HostSendSnapshot pull.SnapshotID haves, Event.Error (.plain err)]
        | .ok reader =>
          match api.vman.ReceiveSnapshot volumeID reader with
          | .error err =>
            [Event.DialHost pull.HostID, Event.ListHaves volumeID,
              Event.HostSendSnapshot pull.SnapshotID haves,
              Event.ReceiveSnapshot volumeID reader, Event.Error (.plain err)]
          | .ok snap =>
            [Event.DialHost pull.HostID, Event.ListHaves volumeID,
              Event.HostSendSnapshot pull.SnapshotID haves,
              Event.ReceiveSnapshot volumeID reader, Event.JSON 200 (.info snap.Info)]

/-- `HTTPAPI.Send`.  `haves` is the empty slice made before decoding; it is
handed to `Decode` by value. -/
def HTTPAPI.Send (lib : Lib) (api : HTTPAPI) (volumeID : String) (body : Body) : Trace :=
  let haves : List RawMessage := []
  match DecodeNonPointer lib.readValue body with
  | some err => [Event.Error (.plain err)]
  | none =>
    match api.vman.SendSnapshot volumeID haves with
    | some err =>
      if err = Err.NoSuchVolume then
        [Event.SendSnapshot volumeID haves, Event.Error (.json ⟨.ObjectNotFoundError,
          ⟨"No volume by id %q", some volumeID⟩⟩)]
      else
        [Event.SendSnapshot volumeID haves, Event.Error (.plain err)]
    | none => [Event.SendSnapshot volumeID haves]

/-- `HTTPAPI.List`.  Stated last: inside the handlers `List` is the list type. -/
def HTTPAPI.List (api : HTTPAPI) : Trace :=
  [Event.Volumes, Event.JSON 200 (.infoList (api.vman.Volumes.map (fun v => v.Info)))]

/-! ## `cli/config/config.go` -/

/-- The `Cluster` struct. -/
structure Cluster where
  Name : String
  Key : String
  TLSPin : String
  ControllerURL : String
  GitURL : String
  GitHost : String
  URL : String
  Domain : String
  deriving DecidableEq, Repr

/-- The `Config` struct; `Clusters` holds the clusters the pointers refer to. -/
structure Config where
  Default : String
  Clusters : List Cluster
  deriving DecidableEq, Repr

/-- A `fmt.Errorf` error, by the message it was made from. -/
structure Errorf where
  msg : Sprintf
  deriving DecidableEq, Repr

/-- The `switch` in the loop of `Config.Add`: the value of `msg` after it.
`msg` is a Go string; `none` is the empty string, and a `Sprintf` of one of
the four formats, which all carry literal text, is never empty. -/
def Config.conflictMsg (existing s : Cluster) (msg : Option Sprintf) : Option Sprintf :=
  if existing.Name = s.Name then
    some ⟨"Cluster %q already exists in ~/.flynnrc", some s.Name⟩
  else if existing.GitURL ≠ "" ∧ existing.GitURL = s.GitURL then
    some ⟨"A cluster with the URL %q already exists in ~/.flynnrc", some s.GitURL⟩
  else if existing.ControllerURL = s.ControllerURL then
    some ⟨"A cluster with the URL %q already exists in ~/.flynnrc", some s.ControllerURL⟩
  else if existing.GitHost ≠ "" ∧ existing.GitHost = s.GitHost then
    some ⟨"A cluster with the git host %q already exists in ~/.flynnrc", some s.GitHost⟩
  else msg

/-- The `for i, existing := range c.Clusters` loop of `Config.Add`, from
index `i` on, with the current `msg` and `conflictIdx`: the error it returns
from inside the loop, or `msg` and `conflictIdx` when the loop ends. -/
def Config.addLoop (s : Cluster) :
    List Cluster → Nat → Option Sprintf → Int → Except Errorf (Option Sprintf × Int)
  | [], _, msg, conflictIdx => .ok (msg, conflictIdx)
  | existing :: rest, i, msg, conflictIdx =>
    let msg1 := Config.conflictMsg existing s msg
    if msg1 ≠ none then
      if conflictIdx ≠ -1 ∧ conflictIdx ≠ (i : Int) then
        .error ⟨⟨"The cluster name and/or URLs conflict with multiple existing clusters.", none⟩⟩
      else
        Config.addLoop s rest (i + 1) msg1 (i : Int)
    else
      Config.addLoop s rest (i + 1) msg1 conflictIdx

/-- `Config.Add`: the returned error (`none` is `nil`) and the config after
the call. -/
def Config.Add (c : Config) (s : Cluster) (force : Bool) : Option Errorf × Config :=
  match Config.addLoop s c.Clusters 0 none (-1) with
  | .error err => (some err, c)
  | .ok (msg, conflictIdx) =>
    match msg with
    | some m =>
      if !force then
        (some ⟨m⟩, c)
      else
        (none, { c with Clusters :=
          (c.Clusters.take conflictIdx.toNat ++ c.Clusters.drop (conflictIdx.toNat + 1)) ++ [s] })
    | none => (none, { c with Clusters := c.Clusters ++ [s] })

/-- The new cluster `s` conflicts with `existing`: same `Name`, same
non-empty `GitURL`, same `ControllerURL`, or same non-empty `GitHost`. -/
def Cluster.conflicts (existing s : Cluster) : Prop :=
  existing.Name = s.Name ∨ (existing.GitURL ≠ "" ∧ existing.GitURL = s.GitURL) ∨
  existing.ControllerURL = s.ControllerURL ∨
  (existing.GitHost ≠ "" ∧ existing.GitHost = s.GitHost)

instance (existing s : Cluster) : Decidable (Cluster.conflicts existing s) := by
  unfold Cluster.conflicts; infer_instance

/-- Example clusters: `clA` and `clB` are unrelated, `clNew` has the name of
`clA` and nothing else in common with either. -/
def clA : Cluster := ⟨"a", "ka", "", "https://controller.a", "https://git.a", "", "", ""⟩

/-- See `clA`. -/
def clB : Cluster := ⟨"b", "kb", "", "https://controller.b", "https://git.b", "", "", ""⟩

/-- See `clA`. -/
def clNew : Cluster := ⟨"a", "kn", "", "https://controller.n", "https://git.n", "", "", ""⟩

/-- A cluster in conflict with neither `clA` nor `clB`. -/
def clC : Cluster := ⟨"c", "kc", "", "https://controller.c", "https://git.c", "", "", ""⟩

/-- The body of the loop of `Config.Upgrade` for one cluster, with the
current value of `changed`: the cluster and `changed` after the two `if`s.
The second `if` reads the cluster as the first one left it. -/
def Cluster.upgradeStep (cluster : Cluster) (changed : Bool) : Cluster × Bool :=
  let r1 : Cluster × Bool :=
    if cluster.URL ≠ "" then
      ({ cluster with ControllerURL := cluster.URL, URL := "" }, true)
    else (cluster, changed)
  if r1.1.Domain ≠ "" then
    ({ r1.1 with
        ControllerURL := "https://controller." ++ r1.1.Domain,
        GitURL := "https://git." ++ r1.1.Domain,
        Domain := "" }, true)
  else r1

/-- The `for _, cluster := range c.Clusters` loop of `Config.Upgrade`: the
clusters after the loop and the final `changed`. -/
def Config.upgradeLoop : List Cluster → Bool → List Cluster × Bool
  | [], changed => ([], changed)
  | cluster :: rest, changed =>
    let r := cluster.upgradeStep changed
    let rs := Config.upgradeLoop rest r.2
    (r.1 :: rs.1, rs.2)

/-- `Config.Upgrade`: the returned `changed` and the config after the call. -/
def Config.Upgrade (c : Config) : Bool × Config :=
  let r := Config.upgradeLoop c.Clusters false
  (r.2, { c with Clusters := r.1 })

/-- The migration of one cluster in the words of its description: a
non-empty `Domain` `d` gives `ControllerURL` `https://controller.` followed
by `d` and `GitURL` `https://git.` followed by `d`; otherwise a non-empty
`URL` becomes the `ControllerURL`; `URL` and `Domain` end up empty; a cluster
with neither field set is unchanged. -/
def Cluster.migrated (cl : Cluster) : Cluster :=
  if cl.Domain ≠ "" then
    { cl with
        ControllerURL := "https://controller." ++ cl.Domain,
        GitURL := "https://git." ++ cl.Domain,
        URL := "",
        Domain := "" }
  else if cl.URL ≠ "" then
    { cl with ControllerURL := cl.URL, URL := "" }
  else cl

/-- A legacy cluster that only has the `URL` field set. -/
def clURL : Cluster := ⟨"u", "ku", "", "", "", "git.u", "https://u.example", ""⟩

/-- A legacy cluster with both `URL` and `Domain` set. -/
def clDomain : Cluster := ⟨"d", "kd", "", "", "", "", "https://d.example", "d.example"⟩

/-! ## Properties of handler runs -/

/-- The event is a `ReceiveSnapshot` call on the manager. -/
def Event.isReceiveSnapshot : Event → Bool
  | .ReceiveSnapshot _ _ => true
  | _ => false

/-- The event is a call on the manager that changes its registries:
`AddProvider` registers a provider, `NewVolumeFromProvider` a volume,
`CreateSnapshot` and `ReceiveSnapshot` a snapshot.  The other manager calls
(`Volumes`, `GetVolume`, `ListHaves`, `SendSnapshot`) only read. -/
def Event.isMutation : Event → Bool
  | .AddProvider _ _ => true
  | .NewVolumeFromProvider _ => true
  | .CreateSnapshot _ => true
  | .ReceiveSnapshot _ _ => true
  | _ => false

/-- One of the steps of `Pull` before `ReceiveSnapshot` returns an error:
decoding the body, `DialHost`, `ListHaves` or the peer's `SendSnapshot`. -/
def PullStepFails (lib : Lib) (api : HTTPAPI) (volumeID : String) (body : Body) : Prop :=
  (∃ err, lib.decodePullCoordinate body = .error err) ∨
  (∃ pull err, lib.decodePullCoordinate body = .ok (some pull) ∧
    api.cluster.DialHost pull.HostID = .error err) ∨
  (∃ pull hostClient err, lib.decodePullCoordinate body = .ok (some pull) ∧
    api.cluster.DialHost pull.HostID = .ok hostClient ∧
    api.vman.ListHaves volumeID = .error err) ∨
  (∃ pull hostClient haves err, lib.decodePullCoordinate body = .ok (some pull) ∧
    api.cluster.DialHost pull.HostID = .ok hostClient ∧
    api.vman.ListHaves volumeID = .ok haves ∧
    hostClient.SendSnapshot pull.SnapshotID haves = .error err)

/-! ## Example collaborators -/

/-- A remote host that streams three bytes for any snapshot. -/
def exHost : HostClient where
  SendSnapshot := fun _ _ => .ok [1, 2, 3]

/-- A cluster in which host `h1` is reachable and no other. -/
def exCluster : ClusterClient where
  DialHost := fun hostID => if hostID = "h1" then .ok exHost else .error (Err.other 1)

/-- A manager with a provider `p1`, a provider `p2` whose backend fails to
allocate, and one volume `v1`. -/
def exManager : Manager where
  AddProvider := fun id _ => if id = "p1" then some Err.ProviderAlreadyExists else none
  NewVolumeFromProvider := fun id =>
    if id = "p1" then (some ⟨⟨"v2"⟩⟩, none)
    else if id = "p2" then (none, some (Err.other 3))
    else (none, some Err.NoSuchProvider)
  Volumes := [⟨⟨"v1"⟩⟩]
  GetVolume := fun id => if id = "v1" then some ⟨⟨"v1"⟩⟩ else none
  CreateSnapshot := fun id => if id = "v1" then .ok ⟨⟨"s1"⟩⟩ else .error Err.NoSuchVolume
  ListHaves := fun id => if id = "v1" then .ok ["s0"] else .error Err.NoSuchVolume
  ReceiveSnapshot := fun id _ => if id = "v1" then .ok ⟨⟨"s2"⟩⟩ else .error Err.NoSuchVolume
  SendSnapshot := fun id _ => if id = "v1" then none else some Err.NoSuchVolume

/-- The example `HTTPAPI`. -/
def exAPI : HTTPAPI where
  cluster := exCluster
  vman := exManager

/-- Library functions for the examples.  An empty body fails to decode,
`null` decodes to a nil pointer, the bodies `blank`, `nfs` and `p1` decode to
provider specs with a blank kind, the unknown kind `nfs` and the taken id `p1`,
any other body to a `zfs` spec without id whose configuration is the body.
Every non-empty body other than `null` decodes to the pull coordinate of
snapshot `s9` on host `h1`.  `NewProvider` knows the kind `zfs` and rejects
the configuration `bad` with an error of the backend. -/
def exLib : Lib where
  decodeProviderSpec := fun body =>
    if body = "" then .error (Err.other 0)
    else if body = "null" then .ok none
    else if body = "blank" then .ok (some ⟨"p3", "", ""⟩)
    else if body = "nfs" then .ok (some ⟨"p4", "nfs", ""⟩)
    else if body = "p1" then .ok (some ⟨"p1", "zfs", ""⟩)
    else .ok (some ⟨"", "zfs", body⟩)
  decodePullCoordinate := fun body =>
    if body = "" then .error (Err.other 0)
    else if body = "null" then .ok none
    else .ok (some ⟨"h1", "s9"⟩)
  readValue := fun body => if body = "" then some (Err.other 0) else none
  UUID := "uuid-1"
  NewProvider := fun pspec =>
    if pspec.Kind = "zfs" then
      if pspec.Config = "bad" then (none, some (Err.other 2)) else (some ⟨"zfs"⟩, none)
    else (none, some Err.UnknownProviderKind)

/-! ## Theorems: `HTTPAPI.Pull` -/

/-- C1: in every run of `Pull` at most one call changes the manager's
registries, and such a call is `ReceiveSnapshot` on the path's volume; when
`ReceiveSnapshot` is called, decoding, `DialHost`, `ListHaves` and the peer's
`SendSnapshot` have all succeeded, the run is exactly those three calls, then
`ReceiveSnapshot` with the reader the peer's `SendSnapshot` returned, then
one response (the error of `ReceiveSnapshot`, or 200 with the snapshot info);
when one of the earlier steps fails, the run ends with `httphelper.Error`,
writes no JSON response and makes no registry-changing call, `ReceiveSnapshot`
included; and the run of each failure is exactly the calls up to the failed
step followed by the error response. -/
theorem Pull_ReceiveSnapshot_atomic (lib : Lib) (api : HTTPAPI) (volumeID : String)
    (body : Body) :
    (((api.Pull lib volumeID body).filter Event.isMutation).length ≤ 1 ∧
      (∀ e ∈ api.Pull lib volumeID body, e.isMutation = true →
        ∃ r, e = Event.ReceiveSnapshot volumeID r) ∧
      ((api.Pull lib volumeID body).filter Event.isReceiveSnapshot).length ≤ 1 ∧
      (∀ v r, Event.ReceiveSnapshot v r ∈ api.Pull lib volumeID body →
        ∃ pull hostClient haves,
          lib.decodePullCoordinate body = .ok (some pull) ∧
          api.cluster.DialHost pull.HostID = .ok hostClient ∧
          api.vman.ListHaves volumeID = .ok haves ∧
          hostClient.SendSnapshot pull.SnapshotID haves = .ok r ∧
          v = volumeID ∧
          ∃ last, api.Pull lib volumeID body =
            [Event.DialHost pull.HostID, Event.ListHaves volumeID,
              Event.HostSendSnapshot pull.SnapshotID haves,
              Event.ReceiveSnapshot volumeID r, last] ∧
            ((∃ err, api.vman.ReceiveSnapshot volumeID r = .error err ∧
                last = Event.Error (.plain err)) ∨
              (∃ snap, api.vman.ReceiveSnapshot volumeID r = .ok snap ∧
                last = Event.JSON 200 (.info snap.Info)))) ∧
      (PullStepFails lib api volumeID body →
        (∃ err, (api.Pull lib volumeID body).getLast? = some (Event.Error (.plain err))) ∧
        (∀ status payload, Event.JSON status payload ∉ api.Pull lib volumeID body) ∧
        (∀ v r, Event.ReceiveSnapshot v r ∉ api.Pull lib volumeID body) ∧
        (∀ e ∈ api.Pull lib volumeID body, e.isMutation = false))) ∧
    (∀ err, lib.decodePullCoordinate body = .error err →
      api.Pull lib volumeID body = [Event.Error (.plain err)]) ∧
    (∀ pull err, lib.decodePullCoordinate body = .ok (some pull) →
      api.cluster.DialHost pull.HostID = .error err →
      api.Pull lib volumeID body = [Event.DialHost pull.HostID, Event.Error (.plain err)]) ∧
    (∀ pull hostClient err, lib.decodePullCoordinate body = .ok (some pull) →
      api.cluster.DialHost pull.HostID = .ok hostClient →
      api.vman.ListHaves volumeID = .error err →
      api.Pull lib volumeID body =
        [Event.DialHost pull.HostID, Event.ListHaves volumeID, Event.Error (.plain err)]) ∧
    (∀ pull hostClient haves err, lib.decodePullCoordinate body = .ok (some pull) →
      api.cluster.DialHost pull.HostID = .ok hostClient →
      api.vman.ListHaves volumeID = .ok haves →
      hostClient.SendSnapshot pull.SnapshotID haves = .error err →
      api.Pull lib volumeID body =
        [Event.DialHost pull.HostID, Event.ListHaves volumeID,
          Event.HostSendSnapshot pull.SnapshotID haves, Event.Error (.plain err)]) := by
  refine ⟨?_, ?_, ?_, ?_, ?_⟩
  · unfold HTTPAPI.Pull PullStepFails
    cases hd : lib.decodePullCoordinate body with
    | error err => simp [Event.isReceiveSnapshot, Event.isMutation]
    | ok o =>
      cases o with
      | none => simp [Event.isReceiveSnapshot, Event.isMutation]
      | some pull =>
        cases hh : api.cluster.DialHost pull.HostID with
        | error err => simp [Event.isReceiveSnapshot, Event.isMutation, hh]
        | ok hostClient =>
          cases hl : api.vman.ListHaves volumeID with
          | error err => simp [Event.isReceiveSnapshot, Event.isMutation, hh, hl]
          | ok haves =>
            cases hs : hostClient.SendSnapshot pull.SnapshotID haves with
            | error err => simp [Event.isReceiveSnapshot, Event.isMutation, hh, hl, hs]
            | ok reader =>
              cases hr : api.vman.ReceiveSnapshot volumeID reader with
              | error err => simp [Event.isReceiveSnapshot, Event.isMutation, hh, hl, hs, hr]
              | ok snap => simp [Event.isReceiveSnapshot, Event.isMutation, hh, hl, hs, hr]
  · intro err hd
    simp [HTTPAPI.Pull, hd]
  · intro pull err hd hh
    simp [HTTPAPI.Pull, hd, hh]
  · intro pull hostClient err hd hh hl
    simp [HTTPAPI.Pull, hd, hh, hl]
  · intro pull hostClient haves err hd hh hl hs
    simp [HTTPAPI.Pull, hd, hh, hl, hs]

/-- C1 at the example: a pull of `v1` from `h1` reaches `ReceiveSnapshot`
with the peer's bytes, and a pull of an unknown volume (where `ListHaves`
fails) ends in an error with no `ReceiveSnapshot`, no registry-changing call
at all, and the run `DialHost`, `ListHaves`, error response. -/
theorem Pull_ReceiveSnapshot_atomic_witness :
    Event.ReceiveSnapshot "v1" [1, 2, 3] ∈ exAPI.Pull exLib "v1" "pull" ∧
    PullStepFails exLib exAPI "v0" "pull" ∧
    (∀ v r, Event.ReceiveSnapshot v r ∉ exAPI.Pull exLib "v0" "pull") ∧
    (∀ e ∈ exAPI.Pull exLib "v0" "pull", e.isMutation = false) ∧
    exAPI.Pull exLib "v0" "pull" =
      [Event.DialHost "h1", Event.ListHaves "v0", Event.Error (.plain Err.NoSuchVolume)] :=
  ⟨by decide,
   Or.inr (Or.inr (Or.inl ⟨⟨"h1", "s9"⟩, exHost, Err.NoSuchVolume, rfl, rfl, rfl⟩)),
   ((Pull_ReceiveSnapshot_atomic exLib exAPI "v0" "pull").1.2.2.2.2
      (Or.inr (Or.inr (Or.inl ⟨⟨"h1", "s9"⟩, exHost, Err.NoSuchVolume, rfl, rfl, rfl⟩)))).2.2.1,
   ((Pull_ReceiveSnapshot_atomic exLib exAPI "v0" "pull").1.2.2.2.2
      (Or.inr (Or.inr (Or.inl ⟨⟨"h1", "s9"⟩, exHost, Err.NoSuchVolume, rfl, rfl, rfl⟩)))).2.2.2,
   (Pull_ReceiveSnapshot_atomic exLib exAPI "v0" "pull").2.2.2.1
      ⟨"h1", "s9"⟩ exHost Err.NoSuchVolume rfl rfl rfl⟩

/-- C2, as stated, fails: `ListHaves` fails for the unknown volume `v0`,
and the run has dialed host `h1` before `ListHaves` was called. -/
theorem Pull_dials_when_ListHaves_fails :
    exAPI.vman.ListHaves "v0" = .error Err.NoSuchVolume ∧
    exAPI.Pull exLib "v0" "pull" =
      [Event.DialHost "h1", Event.ListHaves "v0", Event.Error (.plain Err.NoSuchVolume)] :=
  ⟨rfl, by decide⟩

/-- C2, amended: in `Pull` the remote host is dialed before the local haves
are resolved: a run that calls `ListHaves` starts with a successful
`DialHost` followed by `ListHaves`; when `DialHost` fails the run is
`DialHost` and the error response, with no `ListHaves`; and when `ListHaves`
fails the run is `DialHost`, `ListHaves` and the error response, with no call
of the peer's `SendSnapshot` or of `ReceiveSnapshot`. -/
theorem Pull_DialHost_before_ListHaves (lib : Lib) (api : HTTPAPI) (volumeID : String)
    (body : Body) :
    (∀ v, Event.ListHaves v ∈ api.Pull lib volumeID body →
      ∃ pull hostClient rest,
        lib.decodePullCoordinate body = .ok (some pull) ∧
        api.cluster.DialHost pull.HostID = .ok hostClient ∧
        v = volumeID ∧
        api.Pull lib volumeID body =
          Event.DialHost pull.HostID :: Event.ListHaves volumeID :: rest) ∧
    (∀ pull err, lib.decodePullCoordinate body = .ok (some pull) →
      api.cluster.DialHost pull.HostID = .error err →
      api.Pull lib volumeID body = [Event.DialHost pull.HostID, Event.Error (.plain err)]) ∧
    (∀ pull hostClient err, lib.decodePullCoordinate body = .ok (some pull) →
      api.cluster.DialHost pull.HostID = .ok hostClient →
      api.vman.ListHaves volumeID = .error err →
      api.Pull lib volumeID body =
        [Event.DialHost pull.HostID, Event.ListHaves volumeID, Event.Error (.plain err)]) := by
  refine ⟨?_, ?_, ?_⟩
  · unfold HTTPAPI.Pull
    cases hd : lib.decodePullCoordinate body with
    | error err => simp
    | ok o =>
      cases o with
      | none => simp
      | some pull =>
        cases hh : api.cluster.DialHost pull.HostID with
        | error err => simp [hh]
        | ok hostClient =>
          cases hl : api.vman.ListHaves volumeID with
          | error err => simp [hh, hl]
          | ok haves =>
            cases hs : hostClient.SendSnapshot pull.SnapshotID haves with
            | error err => simp [hh, hl, hs]
            | ok reader =>
              cases hr : api.vman.ReceiveSnapshot volumeID reader with
              | error err => simp [hh, hl, hs, hr]
              | ok snap => simp [hh, hl, hs, hr]
  · intro pull err hd hh
    simp [HTTPAPI.Pull, hd, hh]
  · intro pull hostClient err hd hh hl
    simp [HTTPAPI.Pull, hd, hh, hl]

/-- C2, amended, at the examples: in a cluster where no host can be dialed
the run stops after `DialHost`; for the unknown volume `v0` the run stops
after `ListHaves`. -/
theorem Pull_DialHost_before_ListHaves_witness :
    ({ cluster := ⟨fun _ => .error (Err.other 1)⟩, vman := exManager } : HTTPAPI).Pull
        exLib "v1" "pull" = [Event.DialHost "h1", Event.Error (.plain (Err.other 1))] ∧
    exAPI.Pull exLib "v0" "pull" =
      [Event.DialHost "h1", Event.ListHaves "v0", Event.Error (.plain Err.NoSuchVolume)] :=
  ⟨(Pull_DialHost_before_ListHaves exLib ⟨⟨fun _ => .error (Err.other 1)⟩, exManager⟩
      "v1" "pull").2.1 ⟨"h1", "s9"⟩ (Err.other 1) rfl rfl,
   (Pull_DialHost_before_ListHaves exLib exAPI "v0" "pull").2.2 ⟨"h1", "s9"⟩ exHost
      Err.NoSuchVolume rfl rfl rfl⟩

/-! ## Theorems: not-found at the boundary, and `HTTPAPI.Send` -/

/-- `Pull` never builds a `JSONError`: every error it reports is one it
received, passed on as it is. -/
theorem Pull_reports_no_JSONError (lib : Lib) (api : HTTPAPI) (volumeID : String)
    (body : Body) (e : JSONError) :
    Event.Error (.json e) ∉ api.Pull lib volumeID body := by
  unfold HTTPAPI.Pull
  repeat' split
  all_goals simp

/-- `Send` always stops at decoding: its run is one error response carrying
the decoder's error. -/
theorem Send_stops_at_Decode (lib : Lib) (api : HTTPAPI) (volumeID : String) (body : Body) :
    ∃ err, api.Send lib volumeID body = [Event.Error (.plain err)] := by
  unfold HTTPAPI.Send DecodeNonPointer
  cases lib.readValue body with
  | none => exact ⟨_, rfl⟩
  | some err => exact ⟨_, rfl⟩

/-- C3: for the unregistered volume `v0` (`GetVolume` gives nil, the other
three calls give `NoSuchVolume`), `Inspect` and `Snapshot` report a
`JSONError` with code `ObjectNotFoundError`, while `Pull` passes the
`NoSuchVolume` of `ListHaves` on unmapped and `Send` reports the decoder's
`InvalidUnmarshalError` without reaching `SendSnapshot`. -/
theorem not_found_at_unregistered_volume :
    (exAPI.vman.GetVolume "v0" = none ∧
      exAPI.vman.CreateSnapshot "v0" = .error Err.NoSuchVolume ∧
      exAPI.vman.ListHaves "v0" = .error Err.NoSuchVolume ∧
      exAPI.vman.SendSnapshot "v0" [] = some Err.NoSuchVolume) ∧
    exAPI.Inspect "v0" = [Event.GetVolume "v0",
      Event.Error (.json ⟨.ObjectNotFoundError, ⟨"No volume by id %q", some "v0"⟩⟩)] ∧
    exAPI.Snapshot "v0" = [Event.CreateSnapshot "v0",
      Event.Error (.json ⟨.ObjectNotFoundError, ⟨"No volume by id %q", some "v0"⟩⟩)] ∧
    exAPI.Pull exLib "v0" "pull" =
      [Event.DialHost "h1", Event.ListHaves "v0", Event.Error (.plain Err.NoSuchVolume)] ∧
    exAPI.Send exLib "v0" "[]" = [Event.Error (.plain Err.InvalidUnmarshalError)] :=
  ⟨⟨rfl, rfl, rfl, rfl⟩, by decide, by decide, by decide, by decide⟩

/-- C4: for the well-formed array body `[1, 2]` and the registered volume
`v1`, `Send` reports `InvalidUnmarshalError` and makes no `SendSnapshot`
call. -/
theorem Send_makes_no_SendSnapshot_call :
    exLib.readValue "[1, 2]" = none ∧
    exAPI.Send exLib "v1" "[1, 2]" = [Event.Error (.plain Err.InvalidUnmarshalError)] ∧
    (∀ v haves, Event.SendSnapshot v haves ∉ exAPI.Send exLib "v1" "[1, 2]") := by
  refine ⟨by decide, by decide, ?_⟩
  intro v haves
  have h : exAPI.Send exLib "v1" "[1, 2]" = [Event.Error (.plain Err.InvalidUnmarshalError)] := by
    decide
  simp [h]

/-! ## Theorems: `HTTPAPI.CreateProvider` and `HTTPAPI.Create` -/

/-- C5: for the body `bad`, `NewProvider` returns a nil provider and an error
that is not `UnknownProviderKind`; `CreateProvider` goes on to call
`AddProvider` with the nil provider and writes the 200 response. -/
theorem CreateProvider_registers_after_NewProvider_error :
    exLib.decodeProviderSpec "bad" = .ok (some ⟨"", "zfs", "bad"⟩) ∧
    exLib.NewProvider ⟨"uuid-1", "zfs", "bad"⟩ = (none, some (Err.other 2)) ∧
    exAPI.CreateProvider exLib "bad" =
      [Event.UUID, Event.NewProvider ⟨"uuid-1", "zfs", "bad"⟩,
        Event.AddProvider "uuid-1" none,
        Event.JSON 200 (.providerSpec ⟨"uuid-1", "zfs", "bad"⟩)] :=
  ⟨rfl, rfl, by decide⟩

/-- C6: for the provider `p2`, `NewVolumeFromProvider` returns a nil volume
and an error that is not `NoSuchProvider`; `Create` reports no error: it goes
on to `vol.Info()` for the 200 response, a nil dereference.  For an unknown
provider it reports `ObjectNotFoundError`. -/
theorem Create_ignores_other_errors :
    exAPI.vman.NewVolumeFromProvider "p2" = (none, some (Err.other 3)) ∧
    exAPI.Create "p2" = [Event.NewVolumeFromProvider "p2", Event.Panic] ∧
    exAPI.Create "p9" = [Event.NewVolumeFromProvider "p9",
      Event.Error (.json ⟨.ObjectNotFoundError, ⟨"No volume provider by id %q", some "p9"⟩⟩)] :=
  ⟨rfl, by decide, by decide⟩

/-- `Create` calls `httphelper.Error` only for `NoSuchProvider`: with any
other result of `NewVolumeFromProvider`, error or not, its run has no error
response. -/
theorem Create_reports_only_NoSuchProvider (api : HTTPAPI) (providerID : String)
    (h : (api.vman.NewVolumeFromProvider providerID).2 ≠ some Err.NoSuchProvider)
    (arg : ErrArg) : Event.Error arg ∉ api.Create providerID := by
  unfold HTTPAPI.Create
  simp only [h, if_false]
  split <;> simp

/-- The ID step keeps the kind. -/
theorem assignID_Kind (uuid : String) (pspec : ProviderSpec) :
    (assignID uuid pspec).Kind = pspec.Kind := by
  unfold assignID
  split <;> rfl

/-- The ID step keeps the configuration. -/
theorem assignID_Config (uuid : String) (pspec : ProviderSpec) :
    (assignID uuid pspec).Config = pspec.Config := by
  unfold assignID
  split <;> rfl

/-- The ID step keeps a submitted ID and fills in the generated one. -/
theorem assignID_ID (uuid : String) (pspec : ProviderSpec) :
    (assignID uuid pspec).ID = if pspec.ID = "" then uuid else pspec.ID := by
  unfold assignID
  split <;> simp_all

/-- `CreateProvider` stops after `NewProvider` only for
`UnknownProviderKind`: with any other result, error or not, it calls
`AddProvider` with what `NewProvider` returned. -/
theorem CreateProvider_calls_AddProvider (lib : Lib) (api : HTTPAPI) (body : Body)
    (pspec0 : ProviderSpec) (hd : lib.decodeProviderSpec body = .ok (some pspec0))
    (hk : pspec0.Kind ≠ "")
    (hu : (lib.NewProvider (assignID lib.UUID pspec0)).2 ≠ some Err.UnknownProviderKind) :
    Event.AddProvider (assignID lib.UUID pspec0).ID
      (lib.NewProvider (assignID lib.UUID pspec0)).1 ∈ api.CreateProvider lib body := by
  unfold HTTPAPI.CreateProvider
  simp only [hd, assignID_Kind, hk, hu, if_false]
  split
  · split <;> simp
  · simp

/-- C7: for a body that decodes to a provider spec, (1) a blank kind is
answered with a `JSONError` of code `ValidationError`, with no `NewProvider`
and no `AddProvider` call; (2) when `NewProvider` returns
`UnknownProviderKind` for the spec, the answer is a `ValidationError` with no
`AddProvider` call; (3) when the handler calls `AddProvider` and the result
is `ProviderAlreadyExists`, the answer is a `JSONError` of code
`ObjectExistsError`.  In all three the run has no JSON response. -/
theorem CreateProvider_error_mapping (lib : Lib) (api : HTTPAPI) (body : Body)
    (pspec0 : ProviderSpec) (hd : lib.decodeProviderSpec body = .ok (some pspec0)) :
    (pspec0.Kind = "" →
      (∃ msg, (api.CreateProvider lib body).getLast? =
        some (Event.Error (.json ⟨.ValidationError, msg⟩))) ∧
      (∀ p, Event.NewProvider p ∉ api.CreateProvider lib body) ∧
      (∀ id prov, Event.AddProvider id prov ∉ api.CreateProvider lib body) ∧
      (∀ status payload, Event.JSON status payload ∉ api.CreateProvider lib body)) ∧
    ((lib.NewProvider (assignID lib.UUID pspec0)).2 = some Err.UnknownProviderKind →
      (∃ msg, (api.CreateProvider lib body).getLast? =
        some (Event.Error (.json ⟨.ValidationError, msg⟩))) ∧
      (∀ id prov, Event.AddProvider id prov ∉ api.CreateProvider lib body) ∧
      (∀ status payload, Event.JSON status payload ∉ api.CreateProvider lib body)) ∧
    (∀ id prov, Event.AddProvider id prov ∈ api.CreateProvider lib body →
      api.vman.AddProvider id prov = some Err.ProviderAlreadyExists →
      (∃ msg, (api.CreateProvider lib body).getLast? =
        some (Event.Error (.json ⟨.ObjectExistsError, msg⟩))) ∧
      (∀ status payload, Event.JSON status payload ∉ api.CreateProvider lib body)) := by
  unfold HTTPAPI.CreateProvider
  simp only [hd, assignID_Kind]
  by_cases hk : pspec0.Kind = ""
  · by_cases hi : pspec0.ID = "" <;> simp [hk, hi]
  · by_cases hu : (lib.NewProvider (assignID lib.UUID pspec0)).2 = some Err.UnknownProviderKind
    · by_cases hi : pspec0.ID = "" <;> simp [hk, hi, hu]
    · cases ha : api.vman.AddProvider (assignID lib.UUID pspec0).ID
          (lib.NewProvider (assignID lib.UUID pspec0)).1 with
      | none =>
        by_cases hi : pspec0.ID = "" <;> simp [hk, hi, hu, ha]
      | some err =>
        by_cases he : err = Err.ProviderAlreadyExists
        · by_cases hi : pspec0.ID = "" <;> simp [hk, hi, hu, ha, he]
        · by_cases hi : pspec0.ID = "" <;> simp [hk, hi, hu, ha, he]

/-- C7 at the examples: the body `blank` (blank kind) and the body `nfs`
(unknown kind) are answered with `ValidationError`, the body `p1` (an id
already registered) with `ObjectExistsError`. -/
theorem CreateProvider_error_mapping_witness :
    (∃ msg, (exAPI.CreateProvider exLib "blank").getLast? =
      some (Event.Error (.json ⟨.ValidationError, msg⟩))) ∧
    (∃ msg, (exAPI.CreateProvider exLib "nfs").getLast? =
      some (Event.Error (.json ⟨.ValidationError, msg⟩))) ∧
    (∃ msg, (exAPI.CreateProvider exLib "p1").getLast? =
      some (Event.Error (.json ⟨.ObjectExistsError, msg⟩))) :=
  ⟨((CreateProvider_error_mapping exLib exAPI "blank" ⟨"p3", "", ""⟩ rfl).1 rfl).1,
   ((CreateProvider_error_mapping exLib exAPI "nfs" ⟨"p4", "nfs", ""⟩ rfl).2.1 rfl).1,
   ((CreateProvider_error_mapping exLib exAPI "p1" ⟨"p1", "zfs", ""⟩ rfl).2.2
      "p1" (some ⟨"zfs"⟩) (by decide) rfl).1⟩

/-- C8: when `CreateProvider` writes a JSON response, its status is 200 and
its body is the submitted provider spec with the submitted ID when that is
not empty and the generated one (`random.UUID`, called exactly in that case)
otherwise, with kind and configuration as submitted; the kind is not blank
and `NewProvider`, called with that spec and no other, did not return
`UnknownProviderKind`; `AddProvider` was called with that same ID and the
provider `NewProvider` returned for that spec, returned no error, and was
called with no other ID or provider; the run is exactly the optional `UUID`
call, `NewProvider`, `AddProvider` and the 200 response. -/
theorem CreateProvider_echoes_registered_spec (lib : Lib) (api : HTTPAPI) (body : Body)
    (status : Nat) (payload : Payload)
    (h : Event.JSON status payload ∈ api.CreateProvider lib body) :
    status = 200 ∧
    ∃ pspec0 pspec,
      lib.decodeProviderSpec body = .ok (some pspec0) ∧
      pspec = ⟨if pspec0.ID = "" then lib.UUID else pspec0.ID, pspec0.Kind, pspec0.Config⟩ ∧
      payload = .providerSpec pspec ∧
      (pspec0.ID = "" ↔ Event.UUID ∈ api.CreateProvider lib body) ∧
      pspec0.Kind ≠ "" ∧
      (lib.NewProvider pspec).2 ≠ some Err.UnknownProviderKind ∧
      Event.NewProvider pspec ∈ api.CreateProvider lib body ∧
      (∀ p, Event.NewProvider p ∈ api.CreateProvider lib body → p = pspec) ∧
      Event.AddProvider pspec.ID (lib.NewProvider pspec).1 ∈ api.CreateProvider lib body ∧
      api.vman.AddProvider pspec.ID (lib.NewProvider pspec).1 = none ∧
      (∀ id prov, Event.AddProvider id prov ∈ api.CreateProvider lib body →
        id = pspec.ID ∧ prov = (lib.NewProvider pspec).1) ∧
      api.CreateProvider lib body =
        (if pspec0.ID = "" then [Event.UUID] else []) ++
          [Event.NewProvider pspec, Event.AddProvider pspec.ID (lib.NewProvider pspec).1,
            Event.JSON 200 (.providerSpec pspec)] := by
  unfold HTTPAPI.CreateProvider at h ⊢
  cases hd : lib.decodeProviderSpec body with
  | error err => simp [hd] at h
  | ok o =>
    cases o with
    | none => simp [hd] at h
    | some pspec0 =>
      simp only [hd, assignID_Kind] at h ⊢
      by_cases hk : pspec0.Kind = ""
      · by_cases hi : pspec0.ID = "" <;> simp [hk, hi] at h
      · by_cases hu : (lib.NewProvider (assignID lib.UUID pspec0)).2 =
            some Err.UnknownProviderKind
        · by_cases hi : pspec0.ID = "" <;> simp [hk, hi, hu] at h
        · cases ha : api.vman.AddProvider (assignID lib.UUID pspec0).ID
              (lib.NewProvider (assignID lib.UUID pspec0)).1 with
          | some err =>
            by_cases he : err = Err.ProviderAlreadyExists
            · by_cases hi : pspec0.ID = "" <;> simp [hk, hi, hu, ha, he] at h
            · by_cases hi : pspec0.ID = "" <;> simp [hk, hi, hu, ha, he] at h
          | none =>
            have hspec : (⟨if pspec0.ID = "" then lib.UUID else pspec0.ID, pspec0.Kind,
                pspec0.Config⟩ : ProviderSpec) = assignID lib.UUID pspec0 := by
              unfold assignID
              split <;> simp_all
            simp only [hk, hu, ha, if_false] at h ⊢
            refine ⟨?_, pspec0, assignID lib.UUID pspec0, rfl, hspec.symm, ?_⟩
            · by_cases hi : pspec0.ID = "" <;> simp [hi] at h <;> exact h.1
            · by_cases hi : pspec0.ID = "" <;> simp [hi, ha, hk, hu] at h ⊢ <;> exact h.2

/-- C8 at the example: the body `cfg` carries no ID; the 200 response echoes
the spec with the generated ID `uuid-1`, under which the provider that
`NewProvider` built for it was registered. -/
theorem CreateProvider_echoes_registered_spec_witness :
    Event.JSON 200 (.providerSpec ⟨"uuid-1", "zfs", "cfg"⟩) ∈ exAPI.CreateProvider exLib "cfg" ∧
    Event.AddProvider "uuid-1" (some ⟨"zfs"⟩) ∈ exAPI.CreateProvider exLib "cfg" ∧
    ∃ pspec0 pspec,
      exLib.decodeProviderSpec "cfg" = .ok (some pspec0) ∧
      pspec = ⟨if pspec0.ID = "" then exLib.UUID else pspec0.ID, pspec0.Kind, pspec0.Config⟩ ∧
      Payload.providerSpec ⟨"uuid-1", "zfs", "cfg"⟩ = .providerSpec pspec ∧
      (pspec0.ID = "" ↔ Event.UUID ∈ exAPI.CreateProvider exLib "cfg") ∧
      pspec0.Kind ≠ "" ∧
      (exLib.NewProvider pspec).2 ≠ some Err.UnknownProviderKind ∧
      Event.NewProvider pspec ∈ exAPI.CreateProvider exLib "cfg" ∧
      (∀ p, Event.NewProvider p ∈ exAPI.CreateProvider exLib "cfg" → p = pspec) ∧
      Event.AddProvider pspec.ID (exLib.NewProvider pspec).1 ∈
        exAPI.CreateProvider exLib "cfg" ∧
      exAPI.vman.AddProvider pspec.ID (exLib.NewProvider pspec).1 = none ∧
      (∀ id prov, Event.AddProvider id prov ∈ exAPI.CreateProvider exLib "cfg" →
        id = pspec.ID ∧ prov = (exLib.NewProvider pspec).1) ∧
      exAPI.CreateProvider exLib "cfg" =
        (if pspec0.ID = "" then [Event.UUID] else []) ++
          [Event.NewProvider pspec, Event.AddProvider pspec.ID (exLib.NewProvider pspec).1,
            Event.JSON 200 (.providerSpec pspec)] :=
  ⟨by decide, by decide,
   (CreateProvider_echoes_registered_spec exLib exAPI "cfg" 200
      (.providerSpec ⟨"uuid-1", "zfs", "cfg"⟩) (by decide)).2⟩

/-! ## Theorems: `Config.Add` -/

/-- A cluster that does not conflict leaves `msg` as it was. -/
theorem conflictMsg_of_not_conflicts (existing s : Cluster) (msg : Option Sprintf)
    (h : ¬ existing.conflicts s) : Config.conflictMsg existing s msg = msg := by
  simp only [Cluster.conflicts, not_or] at h
  obtain ⟨h1, h2, h3, h4⟩ := h
  simp [Config.conflictMsg, h1, h2, h3, h4]

/-- A conflicting cluster sets `msg`. -/
theorem conflictMsg_of_conflicts (existing s : Cluster) (msg : Option Sprintf)
    (h : existing.conflicts s) : Config.conflictMsg existing s msg ≠ none := by
  unfold Config.conflictMsg
  split_ifs with h1 h2 h3 h4
  · simp
  · simp
  · simp
  · simp
  · exact absurd h (by simp only [Cluster.conflicts, not_or]; exact ⟨h1, h2, h3, h4⟩)

/-- The `switch` never clears `msg`: once set it stays set. -/
theorem conflictMsg_of_ne_none (existing s : Cluster) (msg : Option Sprintf)
    (h : msg ≠ none) : Config.conflictMsg existing s msg ≠ none := by
  unfold Config.conflictMsg
  split_ifs <;> simp [h]

/-- Over clusters without conflict the loop ends with `msg` empty and
`conflictIdx` untouched. -/
theorem addLoop_no_conflict (s : Cluster) (l : List Cluster) :
    ∀ (i : Nat) (conflictIdx : Int), (∀ e ∈ l, ¬ e.conflicts s) →
      Config.addLoop s l i none conflictIdx = .ok (none, conflictIdx) := by
  induction l with
  | nil => intro i conflictIdx _; rfl
  | cons e rest ih =>
    intro i conflictIdx h
    have he : ¬ e.conflicts s := h e (List.mem_cons_self _ _)
    have hrest : ∀ x ∈ rest, ¬ x.conflicts s := fun x hx => h x (List.mem_cons_of_mem _ hx)
    simp only [Config.addLoop, conflictMsg_of_not_conflicts e s none he]
    simpa using ih (i + 1) conflictIdx hrest

/-- A loop entered with `msg` set ends, if it ends, with `msg` set. -/
theorem addLoop_msg_kept (s : Cluster) (l : List Cluster) :
    ∀ (i : Nat) (msg : Option Sprintf) (conflictIdx : Int) (r : Option Sprintf × Int),
      msg ≠ none → Config.addLoop s l i msg conflictIdx = .ok r → r.1 ≠ none := by
  induction l with
  | nil =>
    intro i msg conflictIdx r hm h
    simp only [Config.addLoop, Except.ok.injEq] at h
    subst h
    exact hm
  | cons e rest ih =>
    intro i msg conflictIdx r hm h
    have hm1 := conflictMsg_of_ne_none e s msg hm
    simp only [Config.addLoop, hm1, ne_eq, not_false_eq_true, if_true] at h
    split_ifs at h
    exact ih (i + 1) _ _ r hm1 h

/-- A loop over clusters of which one conflicts ends, if it ends, with `msg`
set. -/
theorem addLoop_conflict (s : Cluster) (l : List Cluster) :
    ∀ (i : Nat) (conflictIdx : Int) (r : Option Sprintf × Int),
      (∃ e ∈ l, e.conflicts s) → Config.addLoop s l i none conflictIdx = .ok r →
      r.1 ≠ none := by
  induction l with
  | nil => intro i conflictIdx r h; simp at h
  | cons e rest ih =>
    intro i conflictIdx r h hr
    by_cases he : e.conflicts s
    · have hm1 := conflictMsg_of_conflicts e s none he
      simp only [Config.addLoop, hm1, ne_eq, not_false_eq_true, if_true] at hr
      split_ifs at hr
      exact addLoop_msg_kept s rest (i + 1) _ _ r hm1 hr
    · have hrest : ∃ x ∈ rest, x.conflicts s := by
        obtain ⟨x, hx, hc⟩ := h
        rcases List.mem_cons.mp hx with rfl | hx
        · exact absurd hc he
        · exact ⟨x, hx, hc⟩
      simp only [Config.addLoop, conflictMsg_of_not_conflicts e s none he] at hr
      exact ih (i + 1) conflictIdx r hrest (by simpa using hr)

/-- When the first conflicting cluster is followed by any other cluster, the
loop returns the multiple-conflict error at that next cluster: `msg` is still
set from the conflict and `conflictIdx` is the index before. -/
theorem addLoop_conflict_before_last (s : Cluster) (pre : List Cluster) (e next : Cluster)
    (post : List Cluster) :
    ∀ (i : Nat), (∀ x ∈ pre, ¬ x.conflicts s) → e.conflicts s →
      Config.addLoop s (pre ++ e :: next :: post) i none (-1) = .error
        ⟨⟨"The cluster name and/or URLs conflict with multiple existing clusters.", none⟩⟩ := by
  induction pre with
  | nil =>
    intro i _ he
    have hm1 := conflictMsg_of_conflicts e s none he
    have hm2 := conflictMsg_of_ne_none next s _ hm1
    have hi : ¬ ((i : Int) = -1) := by omega
    have hi2 : ¬ ((i : Int) = ((i + 1 : Nat) : Int)) := by omega
    simp [Config.addLoop, hm1, hm2, hi, hi2]
  | cons x rest ih =>
    intro i h he
    have hx : ¬ x.conflicts s := h x (List.mem_cons_self _ _)
    have hrest : ∀ y ∈ rest, ¬ y.conflicts s := fun y hy => h y (List.mem_cons_of_mem _ hy)
    simp only [List.cons_append, Config.addLoop, conflictMsg_of_not_conflicts x s none hx]
    simpa using ih (i + 1) hrest he

/-- `Add` with a single conflicting cluster that is not the last one returns
the multiple-conflict error and changes nothing, with or without `force`. -/
theorem Add_conflict_before_last (d : String) (s : Cluster) (pre : List Cluster)
    (e next : Cluster) (post : List Cluster) (force : Bool)
    (hpre : ∀ x ∈ pre, ¬ x.conflicts s) (he : e.conflicts s) :
    Config.Add ⟨d, pre ++ e :: next :: post⟩ s force =
      (some ⟨⟨"The cluster name and/or URLs conflict with multiple existing clusters.", none⟩⟩,
        ⟨d, pre ++ e :: next :: post⟩) := by
  simp [Config.Add, addLoop_conflict_before_last s pre e next post 0 hpre he]

/-- C9: `clNew` conflicts with `clA` alone.  With `clA` first of two clusters,
`Add(clNew, true)` returns the multiple-conflict error and leaves the
clusters as they were; with `clA` last it removes `clA` and appends
`clNew`. -/
theorem Add_force_single_conflict_not_last :
    (clA.conflicts clNew ∧ ¬ clB.conflicts clNew) ∧
    Config.Add ⟨"", [clA, clB]⟩ clNew true =
      (some ⟨⟨"The cluster name and/or URLs conflict with multiple existing clusters.", none⟩⟩,
        ⟨"", [clA, clB]⟩) ∧
    Config.Add ⟨"", [clB, clA]⟩ clNew true = (none, ⟨"", [clB, clNew]⟩) := by
  decide

/-- C10: `Add(s, false)` returns nil exactly when no existing cluster
conflicts with `s`; in that case the config afterwards is the old one with
`s` appended to `Clusters`; and whenever it returns an error the config is
unchanged. -/
theorem Add_without_force (c : Config) (s : Cluster) :
    ((c.Add s false).1 = none ↔ ∀ e ∈ c.Clusters, ¬ e.conflicts s) ∧
    ((∀ e ∈ c.Clusters, ¬ e.conflicts s) →
      (c.Add s false).2 = { c with Clusters := c.Clusters ++ [s] }) ∧
    ((c.Add s false).1 ≠ none → (c.Add s false).2 = c) := by
  have hno : (∀ e ∈ c.Clusters, ¬ e.conflicts s) →
      c.Add s false = (none, { c with Clusters := c.Clusters ++ [s] }) := by
    intro h
    simp [Config.Add, addLoop_no_conflict s c.Clusters 0 (-1) h]
  have hyes : (∃ e ∈ c.Clusters, e.conflicts s) →
      (c.Add s false).1 ≠ none ∧ (c.Add s false).2 = c := by
    intro h
    unfold Config.Add
    cases hl : Config.addLoop s c.Clusters 0 none (-1) with
    | error err => simp
    | ok r =>
      obtain ⟨msg, conflictIdx⟩ := r
      have hm := addLoop_conflict s c.Clusters 0 (-1) _ h hl
      cases msg with
      | none => exact absurd rfl hm
      | some m => simp
  refine ⟨⟨?_, fun h => by rw [hno h]⟩, fun h => by rw [hno h], ?_⟩
  · intro h
    by_contra hc
    push_neg at hc
    exact (hyes hc).1 h
  · intro h
    by_cases hc : ∃ e ∈ c.Clusters, e.conflicts s
    · exact (hyes hc).2
    · push_neg at hc
      rw [hno hc] at h
      exact absurd rfl h

/-- C10 at the examples: `clC` conflicts with neither `clA` nor `clB` and is
appended; `clNew` conflicts with `clA`, the call returns an error and the
config is unchanged. -/
theorem Add_without_force_witness :
    (Config.Add ⟨"", [clA, clB]⟩ clC false).2 = ⟨"", [clA, clB, clC]⟩ ∧
    (Config.Add ⟨"", [clA, clB]⟩ clNew false).2 = ⟨"", [clA, clB]⟩ :=
  ⟨(Add_without_force ⟨"", [clA, clB]⟩ clC).2.1 (by decide),
   (Add_without_force ⟨"", [clA, clB]⟩ clNew).2.2 (by decide)⟩

/-! ## Theorems: `Config.Upgrade` -/

/-- The loop body migrates the cluster and sets `changed` when the cluster
had a legacy field set. -/
theorem upgradeStep_eq (cl : Cluster) (changed : Bool) :
    cl.upgradeStep changed =
      (cl.migrated, changed || decide (cl.URL ≠ "" ∨ cl.Domain ≠ "")) := by
  unfold Cluster.upgradeStep Cluster.migrated
  by_cases hu : cl.URL = "" <;> by_cases hd : cl.Domain = "" <;> simp [hu, hd]

/-- The loop migrates every cluster in place and returns `changed` set when
it was set on entry or some cluster had a legacy field set. -/
theorem upgradeLoop_eq (l : List Cluster) :
    ∀ changed : Bool, Config.upgradeLoop l changed =
      (l.map Cluster.migrated,
        changed || l.any (fun cl => decide (cl.URL ≠ "" ∨ cl.Domain ≠ ""))) := by
  induction l with
  | nil => intro changed; simp [Config.upgradeLoop]
  | cons cl rest ih =>
    intro changed
    simp only [Config.upgradeLoop, upgradeStep_eq, ih, List.map_cons, List.any_cons,
      Bool.or_assoc]

/-- A migrated cluster has no legacy field set. -/
theorem migrated_clean (cl : Cluster) : cl.migrated.URL = "" ∧ cl.migrated.Domain = "" := by
  unfold Cluster.migrated
  by_cases hu : cl.URL = "" <;> by_cases hd : cl.Domain = "" <;> simp [hu, hd]

/-- A cluster with no legacy field set is its own migration. -/
theorem migrated_of_clean (cl : Cluster) (hu : cl.URL = "") (hd : cl.Domain = "") :
    cl.migrated = cl := by
  simp [Cluster.migrated, hu, hd]

/-- C11: `Upgrade` returns true exactly when some cluster had a non-empty
`URL` or `Domain` before the call; afterwards the config is the old one with
every cluster migrated in place, so every cluster has `URL` and `Domain`
empty; a cluster with a non-empty `Domain` `d` gets `ControllerURL`
`https://controller.` followed by `d` and `GitURL` `https://git.` followed by
`d`; one with an empty `Domain` and a non-empty `URL` gets that `URL` as
`ControllerURL` and keeps its `GitURL`; one with neither set is unchanged;
and a second `Upgrade` returns false and changes nothing. -/
theorem Upgrade_migrates_and_is_idempotent (c : Config) :
    ((c.Upgrade).1 = true ↔ ∃ cl ∈ c.Clusters, cl.URL ≠ "" ∨ cl.Domain ≠ "") ∧
    (c.Upgrade).2 = { c with Clusters := c.Clusters.map Cluster.migrated } ∧
    (∀ cl ∈ (c.Upgrade).2.Clusters, cl.URL = "" ∧ cl.Domain = "") ∧
    (∀ (i : Nat) (cl : Cluster), c.Clusters[i]? = some cl → cl.Domain ≠ "" →
      ∃ cl1, (c.Upgrade).2.Clusters[i]? = some cl1 ∧
        cl1.ControllerURL = "https://controller." ++ cl.Domain ∧
        cl1.GitURL = "https://git." ++ cl.Domain) ∧
    (∀ (i : Nat) (cl : Cluster), c.Clusters[i]? = some cl → cl.Domain = "" → cl.URL ≠ "" →
      ∃ cl1, (c.Upgrade).2.Clusters[i]? = some cl1 ∧
        cl1.ControllerURL = cl.URL ∧ cl1.GitURL = cl.GitURL) ∧
    (∀ (i : Nat) (cl : Cluster), c.Clusters[i]? = some cl → cl.URL = "" → cl.Domain = "" →
      (c.Upgrade).2.Clusters[i]? = some cl) ∧
    (c.Upgrade).2.Upgrade = (false, (c.Upgrade).2) := by
  have hU : c.Upgrade =
      (c.Clusters.any (fun cl => decide (cl.URL ≠ "" ∨ cl.Domain ≠ "")),
        { c with Clusters := c.Clusters.map Cluster.migrated }) := by
    simp [Config.Upgrade, upgradeLoop_eq]
  have hget : ∀ (i : Nat) (cl : Cluster), c.Clusters[i]? = some cl →
      (c.Upgrade).2.Clusters[i]? = some cl.migrated := by
    intro i cl h
    simp [hU, List.getElem?_map, h]
  refine ⟨?_, ?_, ?_, ?_, ?_, ?_, ?_⟩
  · simp [hU, List.any_eq_true]
  · simp [hU]
  · intro cl h
    simp only [hU, List.mem_map] at h
    obtain ⟨x, _, rfl⟩ := h
    exact migrated_clean x
  · intro i cl h hd
    refine ⟨cl.migrated, hget i cl h, ?_⟩
    simp [Cluster.migrated, hd]
  · intro i cl h hd hu
    refine ⟨cl.migrated, hget i cl h, ?_⟩
    simp [Cluster.migrated, hd, hu]
  · intro i cl h hu hd
    rw [hget i cl h, migrated_of_clean cl hu hd]
  · have hmap : (c.Clusters.map Cluster.migrated).map Cluster.migrated =
        c.Clusters.map Cluster.migrated := by
      rw [List.map_map]
      apply List.map_congr_left
      intro x _
      exact migrated_of_clean _ (migrated_clean x).1 (migrated_clean x).2
    have hany : (c.Clusters.map Cluster.migrated).any
        (fun cl => decide (cl.URL ≠ "" ∨ cl.Domain ≠ "")) = false := by
      rw [List.any_eq_false]
      intro x hx
      obtain ⟨y, _, rfl⟩ := List.mem_map.mp hx
      simp [(migrated_clean y).1, (migrated_clean y).2]
    rw [hU]
    simp only [Config.Upgrade, upgradeLoop_eq, hmap, hany, Bool.false_or]

/-- C11 at the example: of the clusters `clURL`, `clDomain` and `clA` the
first two carry legacy fields, so `Upgrade` returns true; `clA`, third in the
list, is unchanged; `clDomain` ends with the URLs made from its domain. -/
theorem Upgrade_migrates_and_is_idempotent_witness :
    (Config.Upgrade ⟨"x", [clURL, clDomain, clA]⟩).1 = true ∧
    (Config.Upgrade ⟨"x", [clURL, clDomain, clA]⟩).2.Clusters[2]? = some clA ∧
    (∃ cl1, (Config.Upgrade ⟨"x", [clURL, clDomain, clA]⟩).2.Clusters[1]? = some cl1 ∧
      cl1.ControllerURL = "https://controller." ++ clDomain.Domain ∧
      cl1.GitURL = "https://git." ++ clDomain.Domain) :=
  ⟨(Upgrade_migrates_and_is_idempotent ⟨"x", [clURL, clDomain, clA]⟩).1.mpr
      ⟨clURL, by decide, by decide⟩,
   (Upgrade_migrates_and_is_idempotent ⟨"x", [clURL, clDomain, clA]⟩).2.2.2.2.2.1
      2 clA rfl rfl rfl,
   (Upgrade_migrates_and_is_idempotent ⟨"x", [clURL, clDomain, clA]⟩).2.2.2.1
      1 clDomain rfl (by decide)⟩

end Flynn
